/-
Verification of the Starlink platform backend core
(access-control evaluator, telemetry ingestion client, row
classifier/transformer, usage/performance aggregation, registration
transactionality) against its natural-language specification.

The definitions below are shallow embeddings of the Python source under
`src/starlink_api/src/`.  Database tables are lists of records, SQLAlchemy
`filter_by(...).first()` is `List.find?`, `.all()` is `List.filter`, and
Python truthiness of optional strings is made explicit.  Primary-key ids
(UUID strings in the source) are abstracted to `Nat`; this is harmless
because the code only ever compares them for equality.
-/
import Mathlib

namespace Starlink

/-! ## Access-control data model (src/models/user.py) -/

/-- A `roles` row: `id` (primary key) and unique `name`. -/
structure Role where
  id : Nat
  name : String
deriving DecidableEq, Repr

/-- A `permissions` row: `id` plus the (`resource`, `action`) natural key. -/
structure Permission where
  id : Nat
  resource : String
  action : String
deriving DecidableEq, Repr

/-- A `role_permissions` edge row. -/
structure RolePermission where
  role_id : Nat
  permission_id : Nat
deriving DecidableEq, Repr

/-- A `user_roles` edge row; it carries an `organization_id` column that the
evaluator never reads. -/
structure UserRole where
  user_id : Nat
  role_id : Nat
  organization_id : Nat
deriving DecidableEq, Repr

/-- The database state visible to the access-control evaluator. -/
structure AuthDB where
  roles : List Role
  permissions : List Permission
  rolePermissions : List RolePermission
  userRoles : List UserRole
deriving Repr

/-- `Role.query.get(pk)` : primary-key lookup, first row with that id. -/
def roleGet (db : AuthDB) (rid : Nat) : Option Role :=
  db.roles.find? (fun role => role.id == rid)

/-- Outcome of the `permission_required` decorator: either the wrapped
handler is invoked (`allow`) or a JSON error body with an HTTP status is
returned (`deny message status`). -/
inductive AuthResult where
  | allow
  | deny (message : String) (status : Nat)
deriving DecidableEq, Repr

/-- Shallow embedding of `permission_required(resource, action)` from
`src/utils/auth.py` (lines 43-77), specialised to an authenticated request
(`verify_jwt_in_request` succeeded and `get_jwt_identity()` returned
`user_id`; the 401 path for invalid credentials is outside this model).

Mirrors the code:
1. `UserRole.query.filter_by(user_id=user_id).all()`;
2. loop: `Role.query.get(ur.role_id)`, return the handler on the first
   role named `'Super Admin'`;
3. `Permission.query.filter_by(resource=resource, action=action).first()`,
   returning `('Permission not found', 403)` when absent;
4. loop: `RolePermission.query.filter_by(role_id=..., permission_id=...)
   .first()`, return the handler on the first hit;
5. otherwise `('Permission denied', 403)`. -/
def permission_required (db : AuthDB) (user_id : Nat)
    (resource action : String) : AuthResult :=
  let user_roles := db.userRoles.filter (fun ur => ur.user_id == user_id)
  if user_roles.any (fun ur =>
      match roleGet db ur.role_id with
      | some role => role.name == "Super Admin"
      | none => false) then
    .allow
  else
    match db.permissions.find? (fun p =>
        p.resource == resource && p.action == action) with
    | none => .deny "Permission not found" 403
    | some permission =>
      if user_roles.any (fun ur =>
          (db.rolePermissions.find? (fun rp =>
            rp.role_id == ur.role_id &&
              rp.permission_id == permission.id)).isSome) then
        .allow
      else
        .deny "Permission denied" 403

/-! ## Telemetry ingestion client (src/utils/starlink_api.py)

JSON scalar values appearing in a telemetry row.  Numbers are abstracted
to `Int`; the code only moves values around and compares the discriminator
string, so the numeric representation is irrelevant. -/
inductive JVal where
  | str (s : String)
  | num (n : Int)
  | null
deriving DecidableEq, Repr

/-- A decoded row (`row_dict` in the source): a Python dict built by
assigning `row_dict[column_name] = row[i]` in column order.  Represented
as the assignment list; `rget` reproduces `dict.get` (last write wins). -/
abbrev TRec := List (String × JVal)

/-- `row_dict.get(key)`: value of the last assignment to `key`, if any. -/
def rget (r : TRec) (k : String) : Option JVal :=
  ((r.filter (fun p => p.1 == k)).getLast?).map Prod.snd

/-- The JSON payload under the `data` key of a telemetry response:
`columnNamesByDeviceType` (a string-keyed object, represented as an
association list with distinct keys) and `values` (a list of rows). -/
structure RawBatch where
  columnNamesByDeviceType : List (String × List String)
  values : List (List JVal)
deriving DecidableEq, Repr

/-- `column_names_by_device_type.get(device_type, [])`: the object is
string-keyed, so a non-string discriminator finds nothing and yields the
`[]` default. -/
def lookupCols (cns : List (String × List String)) (v : JVal) : List String :=
  match v with
  | .str s => ((cns.find? (fun p => p.1 == s)).map Prod.snd).getD []
  | _ => []

/-- The per-row body of the loop in `process_telemetry_data` (lines
76-91): skip rows shorter than 2, look up the column names for
`row[0]`, skip on an empty/absent column list or a length mismatch,
otherwise pair column names with row values positionally. -/
def decodeRowOpt (cns : List (String × List String)) (row : List JVal) :
    Option TRec :=
  if row.length < 2 then none
  else
    let device_type := row.headD .null
    let column_names := lookupCols cns device_type
    if column_names.isEmpty || column_names.length != row.length then none
    else some (column_names.zip row)

/-- `StarlinkAPI.process_telemetry_data` (lines 60-96).  `none` input
models a payload that is falsy or lacks the `data` key, for which the
code returns `None`; metadata is passed through unchanged and is omitted
here. -/
def process_telemetry_data : Option RawBatch → Option (List TRec)
  | none => none
  | some b => some (b.values.filterMap (decodeRowOpt b.columnNamesByDeviceType))

/-- `StarlinkAPI.get_user_terminal_telemetry` (lines 98-114) applied to
the outcome of `get_telemetry` (`none` = fetch failed or payload without
`data`). -/
def get_user_terminal_telemetry (fetched : Option RawBatch) : List TRec :=
  match fetched with
  | none => []
  | some b =>
    match process_telemetry_data (some b) with
    | none => []
    | some processed =>
      processed.filter (fun row => rget row "DeviceType" == some (.str "u"))

/-- `StarlinkAPI.get_router_telemetry` (lines 116-132). -/
def get_router_telemetry (fetched : Option RawBatch) : List TRec :=
  match fetched with
  | none => []
  | some b =>
    match process_telemetry_data (some b) with
    | none => []
    | some processed =>
      processed.filter (fun row => rget row "DeviceType" == some (.str "r"))

/-- `StarlinkAPI.get_ip_allocations` (lines 134-150). -/
def get_ip_allocations (fetched : Option RawBatch) : List TRec :=
  match fetched with
  | none => []
  | some b =>
    match process_telemetry_data (some b) with
    | none => []
    | some processed =>
      processed.filter (fun row => rget row "DeviceType" == some (.str "i"))

/-! ### Token cache (`StarlinkAPI.__init__` / `_ensure_token`, lines 12-27) -/

/-- Python truthiness of the `access_token` attribute (`None` and the
empty string are falsy). -/
def strTruthy : Option String → Bool
  | none => false
  | some s => s != ""

/-- The client's token cache: `self.access_token` and
`self.token_expiry`; a fresh client starts at `⟨none, 0⟩`.  Time is in
seconds. -/
structure TokenState where
  access_token : Option String
  token_expiry : Nat
deriving DecidableEq, Repr

/-- `StarlinkAPI._ensure_token` at wall-clock `now`, with `fresh` the
value `get_starlink_access_token()` would return (`none` = the token
request failed).  Result: `(some s', k)` with the updated cache and the
number `k` of token-exchange calls made, or `(none, k)` when the method
raises (`"Failed to get Starlink access token"`).  The code refreshes
when the cached token is falsy or `current_time >= self.token_expiry`,
and on success sets `self.token_expiry = current_time + 14 * 60`. -/
def ensure_token (now : Nat) (fresh : Option String) (s : TokenState) :
    Option TokenState × Nat :=
  if strTruthy s.access_token = false ∨ s.token_expiry ≤ now then
    match fresh with
    | some t =>
      if t != "" then (some ⟨some t, now + 14 * 60⟩, 1)
      else (none, 1)
    | none => (none, 1)
  else (some s, 0)

/-! ### `StarlinkAPI.get_telemetry` retry behaviour (lines 29-58)

The upstream's behaviour is an oracle: the list of responses it would
give to successive telemetry POSTs.  Token acquisition is assumed to
succeed (each refresh is counted).  The code, starting from a client
that already holds a valid token, issues the POST; on status 401 it sets
`self.access_token = None`, `self.token_expiry = 0` and calls itself
recursively (each recursive call re-enters `_ensure_token`, which now
refreshes); on 2xx it returns the JSON body; on any other status
`raise_for_status` raises and the handler returns `None`. -/
inductive UpResp where
  | ok (body : RawBatch)
  | status (code : Nat)
deriving DecidableEq, Repr

/-- One run of `get_telemetry` against the oracle `responses`, with
`hasToken` the truthiness of the cached token on entry.  Returns
`(result, telemetry attempts made, token-exchange calls made)`.  The
oracle list is consumed one response per telemetry attempt; an exhausted
oracle ends the run with `None` (the recursion in the source has no
other termination case on repeated 401s). -/
def get_telemetry_run (hasToken : Bool) :
    List UpResp → Option RawBatch × Nat × Nat
  | [] => (none, 0, 0)
  | .ok body :: _ => (some body, 1, if hasToken then 0 else 1)
  | .status code :: rest =>
    if code = 401 then
      let r := get_telemetry_run false rest
      (r.1, r.2.1 + 1, r.2.2 + (if hasToken then 0 else 1))
    else (none, 1, if hasToken then 0 else 1)

/-! ### `sync_telemetry` handler (src/routes/telemetry.py, lines 189-248) -/

/-- The three persistent telemetry stores the handler could write to. -/
structure TelemetryStores where
  userTerminalTelemetry : List TRec
  routerTelemetry : List TRec
  ipAllocations : List TRec
deriving DecidableEq, Repr

/-- Response of the sync handler: an error body with an HTTP status, or
the success body with the three per-stream counts. -/
inductive SyncResp where
  | err (message : String) (status : Nat)
  | synced (user_terminal_count router_count ip_allocation_count : Nat)
deriving DecidableEq, Repr

/-- The classification loop of `sync_telemetry` (lines 219-237): one pass
over the processed rows, bumping the counter selected by
`row.get('DeviceType')`. -/
def syncStep (c : Nat × Nat × Nat) (row : TRec) : Nat × Nat × Nat :=
  let device_type := rget row "DeviceType"
  if device_type == some (.str "u") then (c.1 + 1, c.2.1, c.2.2)
  else if device_type == some (.str "r") then (c.1, c.2.1 + 1, c.2.2)
  else if device_type == some (.str "i") then (c.1, c.2.1, c.2.2 + 1)
  else c

def syncCounts (rows : List TRec) : Nat × Nat × Nat :=
  rows.foldl syncStep (0, 0, 0)

/-- `POST /telemetry/sync`.  `account_number` is the request-body field
(`none` or `some ""` are falsy and rejected with 400); `fetched` is what
`starlink_api.get_telemetry` returned (`none` = failure, `some none` = a
truthy payload without a `data` key, for which
`process_telemetry_data` returns `None`).  The handler returns the new
store state alongside the response; the code contains no
`db.session.add` for telemetry rows, so the stores are returned as
received. -/
def sync_telemetry (stores : TelemetryStores) (account_number : Option String)
    (fetched : Option (Option RawBatch)) : TelemetryStores × SyncResp :=
  if strTruthy account_number = false then
    (stores, .err "Account number is required" 400)
  else
    match fetched with
    | none =>
      (stores, .err "Failed to get telemetry data from Starlink API" 500)
    | some payload =>
      match process_telemetry_data payload with
      | none => (stores, .err "Failed to process telemetry data" 500)
      | some data_rows =>
        let c := syncCounts data_rows
        (stores, .synced c.1 c.2.1 c.2.2)

/-! ## Usage / performance aggregation (src/routes/telemetry.py, 251-386)

Device ids are the UUID strings of the schema; telemetry timestamps are
seconds (`Int`).  Column values are exact rationals: the handlers'
float arithmetic (`/ 1024**3`, `round(x, n)`) is modelled with exact
`Rat` arithmetic and round-half-to-even, Python's rounding mode. -/
structure Device where
  id : String
  organization_id : String
deriving DecidableEq, Repr

/-- A `router_telemetry` row (the columns the usage handler reads). -/
structure RouterRow where
  device_id : String
  time : Int
  wan_tx_bytes : Int
  wan_rx_bytes : Int
deriving DecidableEq, Repr

/-- A `user_terminal_telemetry` row (the columns the performance handler
averages). -/
structure UtRow where
  device_id : String
  time : Int
  downlink_throughput : Rat
  uplink_throughput : Rat
  ping_latency_ms_avg : Rat
  ping_drop_rate_avg : Rat
  obstruction_percent_time : Rat
  signal_quality : Rat
deriving DecidableEq, Repr

/-- Round to the nearest integer, ties to even (Python's `round`). -/
def roundHalfEven (q : Rat) : Int :=
  let f := ⌊q⌋
  let frac := q - f
  if frac < 1 / 2 then f
  else if 1 / 2 < frac then f + 1
  else if f % 2 = 0 then f else f + 1

/-- `round(q, ndigits)` in exact rational arithmetic. -/
def pyRound (q : Rat) (ndigits : Nat) : Rat :=
  let scale : Rat := (10 : Rat) ^ ndigits
  (roundHalfEven (q * scale) : Rat) / scale

/-- The `period` dispatch shared by both stats handlers: the trailing
window length in days, or `none` for the invalid-period branch. -/
def periodDays (period : String) : Option Nat :=
  if period = "day" then some 1
  else if period = "week" then some 7
  else if period = "month" then some 30
  else none

/-- The row-selection both handlers build: `filter(device_id == d)` when
`device_id` is truthy, inner `join(Device)` plus
`filter(Device.organization_id == o)` when `organization_id` is truthy
(the join keeps a telemetry row exactly when some `devices` row carries
its `device_id`). -/
def scopeFilter (devices : List Device) (device_id organization_id : Option String)
    (row_device_id : String) : Bool :=
  (if strTruthy device_id then row_device_id == device_id.getD "" else true)
  && (if strTruthy organization_id then
        devices.any (fun dev => dev.id == row_device_id
          && dev.organization_id == organization_id.getD "")
      else true)

/-- Responses of the two stats handlers (the echoed `period`,
`start_time`, `end_time` fields are omitted; they are copies of the
inputs). -/
inductive StatsResp where
  | err (message : String) (status : Nat)
  | usage (upload_bytes download_bytes total_bytes : Int)
      (upload_gb download_gb total_gb : Rat)
  | performance (avg_downlink avg_uplink avg_latency avg_drop_rate
      avg_obstruction avg_signal : Rat)
deriving DecidableEq, Repr

/-- `GET /telemetry/stats/usage` (`get_usage_stats`, lines 254-320).
`now` is `datetime.utcnow()` in seconds; `period` is the raw query
parameter (absent ⇒ the `'day'` default). -/
def get_usage_stats (devices : List Device) (rows : List RouterRow)
    (device_id organization_id period : Option String) (now : Int) : StatsResp :=
  if strTruthy device_id = false ∧ strTruthy organization_id = false then
    .err "Either device_id or organization_id is required" 400
  else
    match periodDays (period.getD "day") with
    | none => .err "Invalid period. Use day, week, or month" 400
    | some days =>
      let start := now - days * 86400
      let sel := rows.filter (fun row =>
        scopeFilter devices device_id organization_id row.device_id
        && decide (start ≤ row.time) && decide (row.time ≤ now))
      let total_tx_bytes := (sel.map (fun row => row.wan_tx_bytes)).sum
      let total_rx_bytes := (sel.map (fun row => row.wan_rx_bytes)).sum
      let total_bytes := total_tx_bytes + total_rx_bytes
      let gib : Rat := 1024 * 1024 * 1024
      .usage total_tx_bytes total_rx_bytes total_bytes
        (pyRound ((total_tx_bytes : Rat) / gib) 2)
        (pyRound ((total_rx_bytes : Rat) / gib) 2)
        (pyRound ((total_bytes : Rat) / gib) 2)

/-- SQL `AVG` over the selection with the handler's `or 0` applied: `0`
for an empty selection, the arithmetic mean otherwise. -/
def avgOrZero (sel : List UtRow) (f : UtRow → Rat) : Rat :=
  if sel.length = 0 then 0 else (sel.map f).sum / (sel.length : Rat)

/-- `GET /telemetry/stats/performance` (`get_performance_stats`, lines
326-386). -/
def get_performance_stats (devices : List Device) (rows : List UtRow)
    (device_id organization_id period : Option String) (now : Int) : StatsResp :=
  if strTruthy device_id = false ∧ strTruthy organization_id = false then
    .err "Either device_id or organization_id is required" 400
  else
    match periodDays (period.getD "day") with
    | none => .err "Invalid period. Use day, week, or month" 400
    | some days =>
      let start := now - days * 86400
      let sel := rows.filter (fun row =>
        scopeFilter devices device_id organization_id row.device_id
        && decide (start ≤ row.time) && decide (row.time ≤ now))
      .performance
        (pyRound (avgOrZero sel (fun row => row.downlink_throughput)) 2)
        (pyRound (avgOrZero sel (fun row => row.uplink_throughput)) 2)
        (pyRound (avgOrZero sel (fun row => row.ping_latency_ms_avg)) 2)
        (pyRound (avgOrZero sel (fun row => row.ping_drop_rate_avg)) 4)
        (pyRound (avgOrZero sel (fun row => row.obstruction_percent_time)) 2)
        (pyRound (avgOrZero sel (fun row => row.signal_quality)) 2)

/-! ## Registration (src/routes/auth.py, `register`, lines 20-64) -/

/-- A `users` row (only the columns the transactionality claim needs). -/
structure RegUser where
  id : Nat
  email : String
deriving DecidableEq, Repr

/-- The committed database state seen by `register`: the user table and
the `(user_id, role_id)` pairs of the UserRole table. -/
structure RegDB where
  users : List RegUser
  userRoles : List (Nat × Nat)
deriving DecidableEq, Repr

/-- Response of the `register` handler. -/
inductive RegResp where
  | err (message : String) (status : Nat)
  | ok (message : String) (status : Nat)
deriving DecidableEq, Repr

/-- Shallow embedding of `register` (src/routes/auth.py, lines 20-64) as
the staged source actually behaves.  After validation the handler checks
the email for uniqueness and returns 409 on a duplicate (lines 28-30).
Otherwise it evaluates `User(email=..., password_hash=..., ...)` (lines
33-39) — and that call raises `TypeError`, because `User.__init__`
(src/models/user.py, line 37) accepts `password`, not `password_hash`.
The exception lands in the generic `except` block (lines 61-64), which
rolls back (nothing is pending yet) and returns the 500 body.  The
add/commit sequence for the User row and the UserRole row (lines 42-50)
is therefore unreachable, and no registration request commits anything.
(`register_schema`, imported at line 14, is moreover not defined in
`src/schemas/user.py`, so the module cannot even be imported as written;
on any reading, control never reaches a commit.) -/
def register (db : RegDB) (email : String) : RegDB × RegResp :=
  if db.users.any (fun u => u.email == email) then
    (db, .err "Email already registered" 409)
  else
    (db, .err "An error occurred during registration" 500)

/-! ### Helper lemmas about the evaluator's list scans -/

/-- A `find?` by id succeeds on a member when ids are pairwise distinct. -/
lemma find?_id_eq_some {roles : List Role} {role : Role}
    (hu : roles.Pairwise (fun a b => a.id ≠ b.id))
    (hm : role ∈ roles) :
    roles.find? (fun x => x.id == role.id) = some role := by
  induction roles with
  | nil => cases hm
  | cons hd tl ih =>
    rcases List.mem_cons.mp hm with h | h
    · subst h
      simp [List.find?]
    · have hne : hd.id ≠ role.id := (List.pairwise_cons.mp hu).1 role h
      have htl := ih (List.pairwise_cons.mp hu).2 h
      simp only [List.find?]
      have : (hd.id == role.id) = false := by
        simpa using hne
      rw [this]
      exact htl

/-- The Super Admin scan succeeds iff some role row of the user is named
`"Super Admin"` (stated through `roleGet`, i.e. primary-key lookup). -/
lemma superAdminScan_eq_true (db : AuthDB) (u : Nat) :
    ((db.userRoles.filter (fun ur => ur.user_id == u)).any (fun ur =>
      match roleGet db ur.role_id with
      | some role => role.name == "Super Admin"
      | none => false) = true) ↔
    ∃ ur ∈ db.userRoles, ur.user_id = u ∧
      ∃ role, roleGet db ur.role_id = some role ∧ role.name = "Super Admin" := by
  simp only [List.any_eq_true, List.mem_filter, beq_iff_eq]
  constructor
  · rintro ⟨ur, ⟨hmem, hu⟩, hrole⟩
    refine ⟨ur, hmem, hu, ?_⟩
    cases hfind : roleGet db ur.role_id with
    | none => rw [hfind] at hrole; simp at hrole
    | some role =>
      rw [hfind] at hrole
      exact ⟨role, rfl, by simpa using hrole⟩
  · rintro ⟨ur, hmem, hu, role, hfind, hname⟩
    exact ⟨ur, ⟨hmem, hu⟩, by rw [hfind]; simpa using hname⟩

/-- The RolePermission scan succeeds iff some role of the user is linked
to the permission id by an edge row. -/
lemma edgeScan_eq_true (db : AuthDB) (u pid : Nat) :
    ((db.userRoles.filter (fun ur => ur.user_id == u)).any (fun ur =>
      (db.rolePermissions.find? (fun rp =>
        rp.role_id == ur.role_id && rp.permission_id == pid)).isSome) = true) ↔
    ∃ ur ∈ db.userRoles, ur.user_id = u ∧
      ∃ rp ∈ db.rolePermissions, rp.role_id = ur.role_id ∧
        rp.permission_id = pid := by
  simp only [List.any_eq_true, List.mem_filter, beq_iff_eq,
    List.find?_isSome, Bool.and_eq_true]
  constructor
  · rintro ⟨ur, ⟨hmem, hu⟩, rp, hrp, h1, h2⟩
    exact ⟨ur, hmem, hu, rp, hrp, h1, h2⟩
  · rintro ⟨ur, hmem, hu, rp, hrp, h1, h2⟩
    exact ⟨ur, ⟨hmem, hu⟩, rp, hrp, h1, h2⟩

/-- A `find?` by the (resource, action) natural key succeeds on a member
when the keys are pairwise distinct (the `uq_resource_action` constraint). -/
lemma find?_permission_eq_some {perms : List Permission} {P : Permission}
    (hu : perms.Pairwise (fun p q => p.resource ≠ q.resource ∨ p.action ≠ q.action))
    (hm : P ∈ perms) :
    perms.find? (fun p => p.resource == P.resource && p.action == P.action)
      = some P := by
  induction perms with
  | nil => cases hm
  | cons hd tl ih =>
    rcases List.mem_cons.mp hm with h | h
    · subst h
      simp [List.find?]
    · have hne := (List.pairwise_cons.mp hu).1 P h
      have htl := ih (List.pairwise_cons.mp hu).2 h
      simp only [List.find?]
      have : (hd.resource == P.resource && hd.action == P.action) = false := by
        rcases hne with hne | hne <;> simp [hne]
      rw [this]
      exact htl

/-- The membership-based form of each `any` scan over the user's UserRole
rows: only the `(user_id, role_id)` projection matters. -/
lemma anyRole_congr (l1 l2 : List UserRole) (u : Nat) (p : Nat → Bool)
    (hur : ∀ a b : Nat,
      (a, b) ∈ l1.map (fun ur => (ur.user_id, ur.role_id)) ↔
      (a, b) ∈ l2.map (fun ur => (ur.user_id, ur.role_id))) :
    (l1.filter (fun ur => ur.user_id == u)).any (fun ur => p ur.role_id)
      = (l2.filter (fun ur => ur.user_id == u)).any (fun ur => p ur.role_id) := by
  have key : ∀ l : List UserRole,
      ((l.filter (fun ur => ur.user_id == u)).any (fun ur => p ur.role_id) = true) ↔
      ∃ b, (u, b) ∈ l.map (fun ur => (ur.user_id, ur.role_id)) ∧ p b = true := by
    intro l
    simp only [List.any_eq_true, List.mem_filter, List.mem_map, beq_iff_eq]
    constructor
    · rintro ⟨ur, ⟨hm, hu⟩, hp⟩
      exact ⟨ur.role_id, ⟨ur, hm, by rw [hu]⟩, hp⟩
    · rintro ⟨b, ⟨ur, hm, heq⟩, hp⟩
      have h1 : ur.user_id = u := congrArg Prod.fst heq
      have h2 : ur.role_id = b := congrArg Prod.snd heq
      exact ⟨ur, ⟨hm, h1⟩, h2 ▸ hp⟩
  rw [Bool.eq_iff_iff, key l1, key l2]
  constructor
  · rintro ⟨b, hmem, hp⟩
    exact ⟨b, (hur u b).mp hmem, hp⟩
  · rintro ⟨b, hmem, hp⟩
    exact ⟨b, (hur u b).mpr hmem, hp⟩

/-! ### Claim theorems about the evaluator -/

/-- C1: a user holding at least one role named "Super Admin" is allowed
for every (resource, action) pair, over an arbitrary permission catalog —
in particular one with no matching Permission row — because the Super
Admin scan runs before, and independently of, any permission lookup.
(The role-id uniqueness hypothesis is the `roles.id` primary-key
invariant.) -/
theorem superAdmin_always_allowed (db : AuthDB) (u : Nat)
    (resource action : String)
    (hids : db.roles.Pairwise (fun a b => a.id ≠ b.id))
    (h : ∃ ur ∈ db.userRoles, ur.user_id = u ∧
      ∃ role ∈ db.roles, role.id = ur.role_id ∧ role.name = "Super Admin") :
    permission_required db u resource action = .allow := by
  have hscan : (db.userRoles.filter (fun ur => ur.user_id == u)).any (fun ur =>
      match roleGet db ur.role_id with
      | some role => role.name == "Super Admin"
      | none => false) = true := by
    rw [superAdminScan_eq_true]
    obtain ⟨ur, hmem, hu, role, hrmem, hrid, hname⟩ := h
    refine ⟨ur, hmem, hu, role, ?_, hname⟩
    unfold roleGet
    rw [← hrid]
    exact find?_id_eq_some hids hrmem
  simp only [permission_required]
  rw [hscan]
  simp

/-- Closed witness for `superAdmin_always_allowed`. -/
theorem superAdmin_always_allowed_witness :
    permission_required
      ⟨[⟨7, "Super Admin"⟩], [], [], [⟨1, 7, 3⟩]⟩ 1 "device" "delete"
      = .allow :=
  superAdmin_always_allowed _ 1 "device" "delete" (by decide)
    ⟨⟨1, 7, 3⟩, by decide, rfl, ⟨7, "Super Admin"⟩, by decide, rfl, rfl⟩

/-- C4: the authorization decision is organization-independent.  Two
database states with identical Role, Permission and RolePermission tables
whose UserRole tables agree on the set of `(user_id, role_id)` pairs —
but may differ arbitrarily in the `organization_id` column (and in row
order or multiplicity) — produce the same evaluator outcome for every
user, resource and action. -/
theorem authorization_org_independent (db1 db2 : AuthDB) (u : Nat)
    (resource action : String)
    (hroles : db1.roles = db2.roles)
    (hperms : db1.permissions = db2.permissions)
    (hrp : db1.rolePermissions = db2.rolePermissions)
    (hur : ∀ a b : Nat,
      (a, b) ∈ db1.userRoles.map (fun ur => (ur.user_id, ur.role_id)) ↔
      (a, b) ∈ db2.userRoles.map (fun ur => (ur.user_id, ur.role_id))) :
    permission_required db1 u resource action
      = permission_required db2 u resource action := by
  have hrg : ∀ rid, roleGet db1 rid = roleGet db2 rid := by
    intro rid
    unfold roleGet
    rw [hroles]
  have hsuper : (db1.userRoles.filter (fun ur => ur.user_id == u)).any (fun ur =>
        match roleGet db1 ur.role_id with
        | some role => role.name == "Super Admin"
        | none => false)
      = (db2.userRoles.filter (fun ur => ur.user_id == u)).any (fun ur =>
        match roleGet db2 ur.role_id with
        | some role => role.name == "Super Admin"
        | none => false) := by
    have hfun : (fun ur : UserRole =>
        match roleGet db1 ur.role_id with
        | some role => role.name == "Super Admin"
        | none => false)
        = (fun ur : UserRole =>
        match roleGet db2 ur.role_id with
        | some role => role.name == "Super Admin"
        | none => false) := by
      funext ur
      rw [hrg]
    rw [hfun]
    exact anyRole_congr db1.userRoles db2.userRoles u
      (fun rid => match roleGet db2 rid with
        | some role => role.name == "Super Admin"
        | none => false) hur
  simp only [permission_required]
  rw [hsuper, hperms, hrp]
  by_cases hs : (db2.userRoles.filter (fun ur => ur.user_id == u)).any (fun ur =>
      match roleGet db2 ur.role_id with
      | some role => role.name == "Super Admin"
      | none => false) = true
  · rw [hs]
    simp
  · rw [Bool.not_eq_true] at hs
    rw [hs]
    simp only [Bool.false_eq_true, if_false]
    cases hfind : db2.permissions.find? (fun p =>
        p.resource == resource && p.action == action) with
    | none => rfl
    | some permission =>
      have hedge : ((db1.userRoles.filter (fun ur => ur.user_id == u)).any
          fun ur => (db2.rolePermissions.find? (fun rp =>
            rp.role_id == ur.role_id &&
              rp.permission_id == permission.id)).isSome)
          = ((db2.userRoles.filter (fun ur => ur.user_id == u)).any
          fun ur => (db2.rolePermissions.find? (fun rp =>
            rp.role_id == ur.role_id &&
              rp.permission_id == permission.id)).isSome) :=
        anyRole_congr db1.userRoles db2.userRoles u
          (fun rid => (db2.rolePermissions.find? (fun rp =>
            rp.role_id == rid && rp.permission_id == permission.id)).isSome) hur
      simp only [hedge]

/-- Closed witness for `authorization_org_independent`: same role graph,
organization column flipped between the two states. -/
theorem authorization_org_independent_witness :
    permission_required ⟨[⟨7, "Viewer"⟩], [⟨4, "device", "read"⟩],
        [⟨7, 4⟩], [⟨1, 7, 100⟩]⟩ 1 "device" "read"
      = permission_required ⟨[⟨7, "Viewer"⟩], [⟨4, "device", "read"⟩],
        [⟨7, 4⟩], [⟨1, 7, 200⟩]⟩ 1 "device" "read" :=
  authorization_org_independent _ _ 1 "device" "read" rfl rfl rfl
    (fun _ _ => Iff.rfl)

/-- C5: for a user with no "Super Admin" role and a (resource, action)
pair registered in no Permission row, the evaluator denies with the
distinct configuration-error body `('Permission not found', 403)`,
distinguishable from the ordinary insufficient-permission denial
`('Permission denied', 403)`. -/
theorem permission_not_found_denial (db : AuthDB) (u : Nat)
    (resource action : String)
    (hnoadmin : ∀ ur ∈ db.userRoles, ur.user_id = u →
      ∀ role, roleGet db ur.role_id = some role → role.name ≠ "Super Admin")
    (hnoperm : ∀ p ∈ db.permissions,
      ¬(p.resource = resource ∧ p.action = action)) :
    permission_required db u resource action = .deny "Permission not found" 403
    ∧ (AuthResult.deny "Permission not found" 403
        ≠ AuthResult.deny "Permission denied" 403) := by
  refine ⟨?_, by decide⟩
  have hscan : (db.userRoles.filter (fun ur => ur.user_id == u)).any (fun ur =>
      match roleGet db ur.role_id with
      | some role => role.name == "Super Admin"
      | none => false) = false := by
    rw [← Bool.not_eq_true, superAdminScan_eq_true]
    rintro ⟨ur, hmem, hu, role, hfind, hname⟩
    exact hnoadmin ur hmem hu role hfind hname
  have hfind : db.permissions.find? (fun p =>
      p.resource == resource && p.action == action) = none := by
    rw [List.find?_eq_none]
    intro p hp
    have := hnoperm p hp
    simp only [Bool.and_eq_true, beq_iff_eq]
    tauto
  simp only [permission_required]
  rw [hscan, hfind]
  simp

/-- Closed witness for `permission_not_found_denial`. -/
theorem permission_not_found_denial_witness :
    permission_required ⟨[⟨7, "Viewer"⟩], [⟨4, "device", "read"⟩],
        [⟨7, 4⟩], [⟨1, 7, 3⟩]⟩ 1 "ticket" "delete"
      = .deny "Permission not found" 403
    ∧ (AuthResult.deny "Permission not found" 403
        ≠ AuthResult.deny "Permission denied" 403) :=
  permission_not_found_denial _ 1 "ticket" "delete" (by decide) (by decide)

/-- C6: for a non-Super-Admin user and a registered Permission `P`
(uniqueness of the (resource, action) natural key is the
`uq_resource_action` constraint): if some role of the user is linked to
`P` by a RolePermission edge the evaluator allows, and if no role is
linked it denies with the ordinary insufficient-permission body — which
the code renders as `('Permission denied', 403)`, distinct from the
configuration-error body `('Permission not found', 403)`. -/
theorem role_permission_grant_and_revoke (db : AuthDB) (u : Nat)
    (P : Permission)
    (hkey : db.permissions.Pairwise
      (fun p q => p.resource ≠ q.resource ∨ p.action ≠ q.action))
    (hP : P ∈ db.permissions)
    (hnoadmin : ∀ ur ∈ db.userRoles, ur.user_id = u →
      ∀ role, roleGet db ur.role_id = some role → role.name ≠ "Super Admin") :
    ((∃ ur ∈ db.userRoles, ur.user_id = u ∧
        ∃ rp ∈ db.rolePermissions, rp.role_id = ur.role_id ∧
          rp.permission_id = P.id) →
      permission_required db u P.resource P.action = .allow)
    ∧ ((∀ ur ∈ db.userRoles, ur.user_id = u →
        ∀ rp ∈ db.rolePermissions,
          ¬(rp.role_id = ur.role_id ∧ rp.permission_id = P.id)) →
      permission_required db u P.resource P.action
        = .deny "Permission denied" 403) := by
  have hscan : (db.userRoles.filter (fun ur => ur.user_id == u)).any (fun ur =>
      match roleGet db ur.role_id with
      | some role => role.name == "Super Admin"
      | none => false) = false := by
    rw [← Bool.not_eq_true, superAdminScan_eq_true]
    rintro ⟨ur, hmem, hu, role, hfind, hname⟩
    exact hnoadmin ur hmem hu role hfind hname
  have hfind : db.permissions.find? (fun p =>
      p.resource == P.resource && p.action == P.action) = some P :=
    find?_permission_eq_some hkey hP
  constructor
  · intro hedge
    have hany : (db.userRoles.filter (fun ur => ur.user_id == u)).any (fun ur =>
        (db.rolePermissions.find? (fun rp =>
          rp.role_id == ur.role_id && rp.permission_id == P.id)).isSome) = true := by
      rw [edgeScan_eq_true]
      exact hedge
    simp only [permission_required]
    rw [hscan, hfind]
    simp only [Bool.false_eq_true, if_false]
    rw [hany]
    simp
  · intro hnoedge
    have hany : (db.userRoles.filter (fun ur => ur.user_id == u)).any (fun ur =>
        (db.rolePermissions.find? (fun rp =>
          rp.role_id == ur.role_id && rp.permission_id == P.id)).isSome) = false := by
      rw [← Bool.not_eq_true, edgeScan_eq_true]
      rintro ⟨ur, hmem, hu, rp, hrp, h1, h2⟩
      exact hnoedge ur hmem hu rp hrp ⟨h1, h2⟩
    simp only [permission_required]
    rw [hscan, hfind]
    simp only [Bool.false_eq_true, if_false]
    rw [hany]
    simp

/-- Closed witness for `role_permission_grant_and_revoke`: a Technician
role linked to (device, update) is allowed; with the edge removed the
same request is denied. -/
theorem role_permission_grant_and_revoke_witness :
    permission_required ⟨[⟨7, "Technician"⟩], [⟨4, "device", "update"⟩],
        [⟨7, 4⟩], [⟨1, 7, 3⟩]⟩ 1 "device" "update" = .allow
    ∧ permission_required ⟨[⟨7, "Technician"⟩], [⟨4, "device", "update"⟩],
        [], [⟨1, 7, 3⟩]⟩ 1 "device" "update"
      = .deny "Permission denied" 403 :=
  ⟨(role_permission_grant_and_revoke
      ⟨[⟨7, "Technician"⟩], [⟨4, "device", "update"⟩], [⟨7, 4⟩], [⟨1, 7, 3⟩]⟩
      1 ⟨4, "device", "update"⟩ (by decide) (by decide) (by decide)).1
    ⟨⟨1, 7, 3⟩, by decide, rfl, ⟨7, 4⟩, by decide, rfl, rfl⟩,
   (role_permission_grant_and_revoke
      ⟨[⟨7, "Technician"⟩], [⟨4, "device", "update"⟩], [], [⟨1, 7, 3⟩]⟩
      1 ⟨4, "device", "update"⟩ (by decide) (by decide) (by decide)).2
    (by decide)⟩

/-- C7: the token cache state machine.  A refresh triggered at time `t`
that obtains a (truthy) token caches it with expiry `t + 14` minutes and
makes exactly one token-exchange call; every later call strictly before
the expiry reuses the cached token with no exchange call; a call at or
after the expiry makes exactly one new exchange call (which
`get_telemetry` performs before issuing the telemetry POST). -/
theorem token_cache_state_machine (t : Nat) (tok : String) (htok : tok ≠ "")
    (s0 : TokenState)
    (hstale : strTruthy s0.access_token = false ∨ s0.token_expiry ≤ t) :
    ensure_token t (some tok) s0 = (some ⟨some tok, t + 14 * 60⟩, 1)
    ∧ (∀ (t' : Nat) (fresh' : Option String), t' < t + 14 * 60 →
        ensure_token t' fresh' ⟨some tok, t + 14 * 60⟩
          = (some ⟨some tok, t + 14 * 60⟩, 0))
    ∧ (∀ (t' : Nat) (fresh' : Option String), t + 14 * 60 ≤ t' →
        (ensure_token t' fresh' ⟨some tok, t + 14 * 60⟩).2 = 1) := by
  refine ⟨?_, ?_, ?_⟩
  · unfold ensure_token
    rw [if_pos hstale]
    simp [htok]
  · intro t' fresh' ht'
    unfold ensure_token
    rw [if_neg]
    rintro (h | h)
    · simp [strTruthy] at h
      exact htok h
    · simp only at h
      omega
  · intro t' fresh' ht'
    unfold ensure_token
    rw [if_pos (Or.inr ht')]
    cases fresh' with
    | none => rfl
    | some t'' =>
      by_cases h : (t'' != "") = true <;> simp [h]

/-- Closed witness for `token_cache_state_machine`: first acquisition at
`t = 1000` on a fresh client. -/
theorem token_cache_state_machine_witness :
    ensure_token 1000 (some "tok") ⟨none, 0⟩ = (some ⟨some "tok", 1840⟩, 1) :=
  (token_cache_state_machine 1000 "tok" (by decide) ⟨none, 0⟩
    (Or.inl rfl)).1

/-- C2 evidence: `get_telemetry` has no retry bound.  The first conjunct
is the spec's positive case (401 then 200: success with exactly 2
telemetry attempts and 1 token refresh, as claimed).  The second shows
the violation: when the upstream answers 401, 401, 401, 200, the call
does not terminate in error after 2 attempts — the recursion clears the
token and refetches on every 401, making a 3rd and a 4th telemetry
attempt (and 3 token refreshes) and returning the 4th response's body. -/
theorem get_telemetry_retry_unbounded :
    get_telemetry_run true [.status 401, .ok ⟨[], []⟩]
      = (some ⟨[], []⟩, 2, 1)
    ∧ get_telemetry_run true
        [.status 401, .status 401, .status 401, .ok ⟨[], []⟩]
      = (some ⟨[], []⟩, 4, 3) := by
  constructor <;> rfl

/-- C3 counterexample: a row whose device type's column list does not
name a `DeviceType` column survives decoding (discriminator `"u"`,
matching lengths, decoded by positional pairing) yet lands in none of
the three streams, because the per-stream filters select on the decoded
record's `DeviceType` field, not on the raw discriminator `row[0]`. -/
theorem decode_misfiled_row_counterexample :
    decodeRowOpt [("u", ["A", "B"])] [JVal.str "u", JVal.num 1]
        = some [("A", JVal.str "u"), ("B", JVal.num 1)]
    ∧ get_user_terminal_telemetry
        (some ⟨[("u", ["A", "B"])], [[JVal.str "u", JVal.num 1]]⟩) = []
    ∧ get_router_telemetry
        (some ⟨[("u", ["A", "B"])], [[JVal.str "u", JVal.num 1]]⟩) = []
    ∧ get_ip_allocations
        (some ⟨[("u", ["A", "B"])], [[JVal.str "u", JVal.num 1]]⟩) = [] := by
  refine ⟨by decide, by decide, by decide, by decide⟩

/-- C3 (amended): decoding drops short rows, rows with an
absent/empty/mismatched column list, and pairs the survivors
positionally; each surviving record is filed in the stream matching its
decoded `DeviceType` field (records whose `DeviceType` field is not
`"u"`/`"r"`/`"i"` — in particular unknown discriminators under schemas
that echo the discriminator into a `DeviceType` column — appear in no
stream); and when the transport call succeeded the three streams are
always produced, empty when every row is dropped. -/
theorem telemetry_decode_classification (b : RawBatch) (row : List JVal) :
    (row.length < 2 → decodeRowOpt b.columnNamesByDeviceType row = none)
    ∧ (∀ cols, lookupCols b.columnNamesByDeviceType (row.headD .null) = cols →
        (cols = [] ∨ cols.length ≠ row.length) →
        decodeRowOpt b.columnNamesByDeviceType row = none)
    ∧ (∀ r, decodeRowOpt b.columnNamesByDeviceType row = some r →
        2 ≤ row.length
        ∧ (lookupCols b.columnNamesByDeviceType (row.headD .null)).length
            = row.length
        ∧ r = (lookupCols b.columnNamesByDeviceType (row.headD .null)).zip row)
    ∧ (∀ r : TRec, r ∈ get_user_terminal_telemetry (some b) ↔
        (∃ row' ∈ b.values, decodeRowOpt b.columnNamesByDeviceType row' = some r)
          ∧ rget r "DeviceType" = some (.str "u"))
    ∧ (∀ r : TRec, r ∈ get_router_telemetry (some b) ↔
        (∃ row' ∈ b.values, decodeRowOpt b.columnNamesByDeviceType row' = some r)
          ∧ rget r "DeviceType" = some (.str "r"))
    ∧ (∀ r : TRec, r ∈ get_ip_allocations (some b) ↔
        (∃ row' ∈ b.values, decodeRowOpt b.columnNamesByDeviceType row' = some r)
          ∧ rget r "DeviceType" = some (.str "i"))
    ∧ ((∀ row' ∈ b.values, decodeRowOpt b.columnNamesByDeviceType row' = none) →
        get_user_terminal_telemetry (some b) = []
        ∧ get_router_telemetry (some b) = []
        ∧ get_ip_allocations (some b) = []) := by
  refine ⟨?_, ?_, ?_, ?_, ?_, ?_, ?_⟩
  · intro h
    simp only [decodeRowOpt]
    rw [if_pos h]
  · intro cols hcols hbad
    simp only [decodeRowOpt]
    by_cases h1 : row.length < 2
    · rw [if_pos h1]
    · rw [if_neg h1, hcols]
      have hcond : (cols.isEmpty || cols.length != row.length) = true := by
        rcases hbad with h | h
        · subst h
          simp
        · simp [h]
      rw [if_pos hcond]
  · intro r hr
    simp only [decodeRowOpt] at hr
    by_cases h1 : row.length < 2
    · rw [if_pos h1] at hr
      cases hr
    · rw [if_neg h1] at hr
      by_cases h2 : ((lookupCols b.columnNamesByDeviceType (row.headD .null)).isEmpty
          || (lookupCols b.columnNamesByDeviceType (row.headD .null)).length
            != row.length) = true
      · rw [if_pos h2] at hr
        cases hr
      · rw [if_neg h2] at hr
        injection hr with hr
        simp only [Bool.or_eq_true, not_or, Bool.not_eq_true,
          bne_eq_false_iff_eq] at h2
        exact ⟨by omega, h2.2, hr.symm⟩
  · intro r
    simp only [get_user_terminal_telemetry, process_telemetry_data]
    simp only [List.mem_filter, List.mem_filterMap, beq_iff_eq]
  · intro r
    simp only [get_router_telemetry, process_telemetry_data]
    simp only [List.mem_filter, List.mem_filterMap, beq_iff_eq]
  · intro r
    simp only [get_ip_allocations, process_telemetry_data]
    simp only [List.mem_filter, List.mem_filterMap, beq_iff_eq]
  · intro hall
    have hnil : b.values.filterMap (decodeRowOpt b.columnNamesByDeviceType) = [] :=
      List.filterMap_eq_nil_iff.mpr hall
    refine ⟨?_, ?_, ?_⟩ <;>
      simp [get_user_terminal_telemetry, get_router_telemetry,
        get_ip_allocations, process_telemetry_data, hnil]

/-- Closed witness for `telemetry_decode_classification`: a one-element
row is dropped. -/
theorem telemetry_decode_classification_witness :
    decodeRowOpt ([] : List (String × List String)) [JVal.null] = none :=
  (telemetry_decode_classification ⟨[], []⟩ [JVal.null]).1 (by decide)

/-- The classification fold of `sync_telemetry`, run from an arbitrary
accumulator, adds the three per-discriminator filter lengths. -/
lemma syncCounts_foldl (rows : List TRec) (a b c : Nat) :
    rows.foldl syncStep (a, b, c)
    = (a + (rows.filter (fun r => rget r "DeviceType" == some (.str "u"))).length,
       b + (rows.filter (fun r => rget r "DeviceType" == some (.str "r"))).length,
       c + (rows.filter (fun r => rget r "DeviceType" == some (.str "i"))).length) := by
  induction rows generalizing a b c with
  | nil => simp
  | cons hd tl ih =>
    rw [List.foldl_cons]
    by_cases h1 : (rget hd "DeviceType" == some (JVal.str "u")) = true
    · have hstep : syncStep (a, b, c) hd = (a + 1, b, c) := by
        unfold syncStep
        rw [if_pos h1]
      have h1' := beq_iff_eq.mp h1
      rw [hstep, ih]
      simp [List.filter_cons, h1', Prod.ext_iff]
      omega
    · by_cases h2 : (rget hd "DeviceType" == some (JVal.str "r")) = true
      · have hstep : syncStep (a, b, c) hd = (a, b + 1, c) := by
          unfold syncStep
          rw [if_neg h1, if_pos h2]
        have h2' := beq_iff_eq.mp h2
        rw [hstep, ih]
        simp [List.filter_cons, h2', Prod.ext_iff]
        omega
      · by_cases h3 : (rget hd "DeviceType" == some (JVal.str "i")) = true
        · have hstep : syncStep (a, b, c) hd = (a, b, c + 1) := by
            unfold syncStep
            rw [if_neg h1, if_neg h2, if_pos h3]
          have h3' := beq_iff_eq.mp h3
          rw [hstep, ih]
          rw [Bool.not_eq_true] at h1 h2
          simp [List.filter_cons, h1, h2, h3', Prod.ext_iff]
          omega
        · have hstep : syncStep (a, b, c) hd = (a, b, c) := by
            unfold syncStep
            rw [if_neg h1, if_neg h2, if_neg h3]
          rw [hstep, ih]
          rw [Bool.not_eq_true] at h1 h2 h3
          simp [List.filter_cons, h1, h2, h3]

/-- `syncCounts` computes the three per-stream filter lengths. -/
lemma syncCounts_eq (rows : List TRec) :
    syncCounts rows
      = ((rows.filter (fun r => rget r "DeviceType" == some (.str "u"))).length,
         (rows.filter (fun r => rget r "DeviceType" == some (.str "r"))).length,
         (rows.filter (fun r => rget r "DeviceType" == some (.str "i"))).length) := by
  unfold syncCounts
  rw [syncCounts_foldl]
  simp

/-- C10: `POST /telemetry/sync` never writes telemetry rows.  For every
prior store state, request body and upstream outcome, the handler
returns the stores exactly as it found them; on the success path its
response carries the per-stream classification counts — the sizes of the
three decoded streams — with nothing inserted. -/
theorem sync_telemetry_frame (stores : TelemetryStores)
    (account_number : Option String) (fetched : Option (Option RawBatch)) :
    (sync_telemetry stores account_number fetched).1 = stores
    ∧ (∀ b : RawBatch, fetched = some (some b) →
        strTruthy account_number = true →
        (sync_telemetry stores account_number fetched).2
          = .synced (get_user_terminal_telemetry (some b)).length
              (get_router_telemetry (some b)).length
              (get_ip_allocations (some b)).length) := by
  constructor
  · unfold sync_telemetry
    by_cases h : strTruthy account_number = false
    · rw [if_pos h]
    · rw [if_neg h]
      cases fetched with
      | none => rfl
      | some payload =>
        cases payload with
        | none => rfl
        | some b => rfl
  · intro b hf ht
    subst hf
    unfold sync_telemetry
    rw [if_neg (by simp [ht])]
    simp only [process_telemetry_data, get_user_terminal_telemetry,
      get_router_telemetry, get_ip_allocations]
    rw [syncCounts_eq]

/-- Closed witness for `sync_telemetry_frame`: a successful sync of one
user-terminal row leaves a nonempty store unchanged and reports counts
(1, 0, 0). -/
theorem sync_telemetry_frame_witness :
    (sync_telemetry ⟨[[("DeviceType", JVal.str "u")]], [], []⟩ (some "ACC")
        (some (some ⟨[("u", ["DeviceType", "X"])],
          [[JVal.str "u", JVal.num 5]]⟩))).1
      = ⟨[[("DeviceType", JVal.str "u")]], [], []⟩
    ∧ (sync_telemetry ⟨[[("DeviceType", JVal.str "u")]], [], []⟩ (some "ACC")
        (some (some ⟨[("u", ["DeviceType", "X"])],
          [[JVal.str "u", JVal.num 5]]⟩))).2 = .synced 1 0 0 :=
  ⟨(sync_telemetry_frame ⟨[[("DeviceType", JVal.str "u")]], [], []⟩ (some "ACC")
      (some (some ⟨[("u", ["DeviceType", "X"])], [[JVal.str "u", JVal.num 5]]⟩))).1,
   by
    rw [(sync_telemetry_frame ⟨[[("DeviceType", JVal.str "u")]], [], []⟩ (some "ACC")
      (some (some ⟨[("u", ["DeviceType", "X"])],
        [[JVal.str "u", JVal.num 5]]⟩))).2 _ rfl (by decide)]
    decide⟩

/-- C8 counterexample: a usage request supplying BOTH `device_id` and
`organization_id` is not rejected — the handler accepts it, applies both
filters, and returns the aggregated stats, contradicting the claim that
exactly one scoping parameter is accepted. -/
theorem usage_both_scopes_accepted_counterexample :
    (match get_usage_stats [⟨"d1", "o1"⟩] [⟨"d1", 500, 10, 20⟩]
      (some "d1") (some "o1") (some "day") 1000 with
     | StatsResp.usage up down tot _ _ _ => up = 10 ∧ down = 20 ∧ tot = 30
     | _ => False) :=
  ⟨rfl, rfl, rfl⟩

/-- C8 (amended): at least one of `device_id` / `organization_id` is
required — a request with neither (absent or empty) is rejected with the
400 client error, in both stats handlers; a request with both is
accepted with both filters applied; and when organization-scoped both
the usage and the performance aggregations are computed in one selection
over the rows of every device belonging to that organization (an inner
join with the Device table), not a per-device fan-out. -/
theorem stats_scoping_and_org_join (devices : List Device)
    (rows : List RouterRow) (utRows : List UtRow)
    (device_id organization_id period : Option String) (now : Int)
    (days : Nat) :
    (strTruthy device_id = false → strTruthy organization_id = false →
      get_usage_stats devices rows device_id organization_id period now
        = .err "Either device_id or organization_id is required" 400
      ∧ get_performance_stats devices utRows device_id organization_id period now
        = .err "Either device_id or organization_id is required" 400)
    ∧ (strTruthy organization_id = true →
        periodDays (period.getD "day") = some days →
        ∃ sel : List RouterRow,
          sel = rows.filter (fun row =>
            decide ((strTruthy device_id = true →
                row.device_id = device_id.getD "") ∧
              (∃ dev ∈ devices, dev.id = row.device_id ∧
                dev.organization_id = organization_id.getD "") ∧
              now - (days : Int) * 86400 ≤ row.time ∧ row.time ≤ now))
          ∧ get_usage_stats devices rows device_id organization_id period now
            = .usage (sel.map (fun row => row.wan_tx_bytes)).sum
                (sel.map (fun row => row.wan_rx_bytes)).sum
                ((sel.map (fun row => row.wan_tx_bytes)).sum
                  + (sel.map (fun row => row.wan_rx_bytes)).sum)
                (pyRound ((((sel.map (fun row => row.wan_tx_bytes)).sum : Int) : Rat)
                  / (1024 * 1024 * 1024)) 2)
                (pyRound ((((sel.map (fun row => row.wan_rx_bytes)).sum : Int) : Rat)
                  / (1024 * 1024 * 1024)) 2)
                (pyRound ((((sel.map (fun row => row.wan_tx_bytes)).sum
                  + (sel.map (fun row => row.wan_rx_bytes)).sum : Int) : Rat)
                  / (1024 * 1024 * 1024)) 2))
    ∧ (strTruthy organization_id = true →
        periodDays (period.getD "day") = some days →
        ∃ selP : List UtRow,
          selP = utRows.filter (fun row =>
            decide ((strTruthy device_id = true →
                row.device_id = device_id.getD "") ∧
              (∃ dev ∈ devices, dev.id = row.device_id ∧
                dev.organization_id = organization_id.getD "") ∧
              now - (days : Int) * 86400 ≤ row.time ∧ row.time ≤ now))
          ∧ get_performance_stats devices utRows device_id organization_id period now
            = .performance
                (pyRound (avgOrZero selP (fun row => row.downlink_throughput)) 2)
                (pyRound (avgOrZero selP (fun row => row.uplink_throughput)) 2)
                (pyRound (avgOrZero selP (fun row => row.ping_latency_ms_avg)) 2)
                (pyRound (avgOrZero selP (fun row => row.ping_drop_rate_avg)) 4)
                (pyRound (avgOrZero selP (fun row => row.obstruction_percent_time)) 2)
                (pyRound (avgOrZero selP (fun row => row.signal_quality)) 2)) := by
  refine ⟨?_, ?_, ?_⟩
  · intro hd ho
    constructor
    · unfold get_usage_stats
      rw [if_pos ⟨hd, ho⟩]
    · unfold get_performance_stats
      rw [if_pos ⟨hd, ho⟩]
  · intro ho hp
    have hfilter : rows.filter (fun row =>
        scopeFilter devices device_id organization_id row.device_id
        && decide (now - (days : Int) * 86400 ≤ row.time)
        && decide (row.time ≤ now))
        = rows.filter (fun row =>
        decide ((strTruthy device_id = true →
            row.device_id = device_id.getD "") ∧
          (∃ dev ∈ devices, dev.id = row.device_id ∧
            dev.organization_id = organization_id.getD "") ∧
          now - (days : Int) * 86400 ≤ row.time ∧ row.time ≤ now)) := by
      apply List.filter_congr
      intro row _
      rw [Bool.eq_iff_iff]
      cases hdev : strTruthy device_id <;>
        simp [scopeFilter, hdev, ho, List.any_eq_true, and_assoc]
    refine ⟨_, rfl, ?_⟩
    unfold get_usage_stats
    rw [if_neg (by simp [ho])]
    rw [hp]
    simp only
    rw [hfilter]
  · intro ho hp
    have hfilterP : utRows.filter (fun row =>
        scopeFilter devices device_id organization_id row.device_id
        && decide (now - (days : Int) * 86400 ≤ row.time)
        && decide (row.time ≤ now))
        = utRows.filter (fun row =>
        decide ((strTruthy device_id = true →
            row.device_id = device_id.getD "") ∧
          (∃ dev ∈ devices, dev.id = row.device_id ∧
            dev.organization_id = organization_id.getD "") ∧
          now - (days : Int) * 86400 ≤ row.time ∧ row.time ≤ now)) := by
      apply List.filter_congr
      intro row _
      rw [Bool.eq_iff_iff]
      cases hdev : strTruthy device_id <;>
        simp [scopeFilter, hdev, ho, List.any_eq_true, and_assoc]
    refine ⟨_, rfl, ?_⟩
    unfold get_performance_stats
    rw [if_neg (by simp [ho])]
    rw [hp]
    simp only
    rw [hfilterP]

/-- Closed witness for `stats_scoping_and_org_join`: a request with no
scoping parameter is rejected by both handlers. -/
theorem stats_scoping_and_org_join_witness :
    get_usage_stats [] [] none none none 0
      = .err "Either device_id or organization_id is required" 400
    ∧ get_performance_stats [] [] none none none 0
      = .err "Either device_id or organization_id is required" 400 :=
  (stats_scoping_and_org_join [] [] [] none none none 0 1).1 rfl rfl

/-- C9: registration is all-or-nothing on the staged source — vacuously
so.  Every registration request leaves the committed store exactly as it
found it: a duplicate email gets 409, and every other request raises
`TypeError` at the `User(...)` construction before the first
`db.session.add`/`commit` and gets the generic 500.  In particular no
request can leave a new User row committed with its default-role
assignment missing; the two-step commit sequence that could have
violated atomicity is dead code. -/
theorem register_all_or_nothing (db : RegDB) (email : String) :
    (register db email).1 = db
    ∧ ((register db email).2 = .err "Email already registered" 409
       ∨ (register db email).2
          = .err "An error occurred during registration" 500) := by
  unfold register
  by_cases h : (db.users.any (fun u => u.email == email)) = true
  · rw [if_pos h]
    exact ⟨rfl, Or.inl rfl⟩
  · rw [if_neg h]
    exact ⟨rfl, Or.inr rfl⟩

end Starlink
